import Mathlib

/-!
Shallow embedding of the `amy-gba` demo (`src/main.rs`): a GBA Mode 3 bitmap
display with a cursor sprite ("reticle") moved by directional input, one main
loop iteration ("tick") per vblank interrupt.  The embedding models the cursor
state update of the main loop, the hardware writes a tick issues (OAM sprite
attribute writes and framebuffer pixel writes), the `move_reticle`,
`register_palette` and `irq_handler` functions, and a small transition system
for the vblank refresh-pending flag.
-/

namespace AmyGba

/-- Frame width in pixels: `const WIDTH: u32 = Mode3::WIDTH as u32` (240). -/
def WIDTH : Nat := 240

/-- Frame height in pixels: `const HEIGHT: u32 = Mode3::HEIGHT as u32` (160). -/
def HEIGHT : Nat := 160

/-- `embedded_graphics::geometry::Point`: a pair of `i32` coordinates,
modelled as unbounded integers (all values occurring stay far from `i32`
overflow). -/
structure Point where
  x : Int
  y : Int
deriving DecidableEq

/-- `let mut point = Point::try_from((WIDTH, HEIGHT)).unwrap() / 2`:
component-wise truncating division of the frame dimensions by 2. -/
def initialPoint : Point := ⟨(WIDTH : Int) / 2, (HEIGHT : Int) / 2⟩

/-- One tick's sampled input: `input.x_tribool()` and `input.y_tribool()`
(each −1, 0 or +1) and the action button `input.a()`. -/
structure TickInput where
  dx : Int
  dy : Int
  a : Bool
deriving DecidableEq

/-- The bounds check performed by the pattern
`Ok((x @ 0..WIDTH, y @ 0..HEIGHT)) = point.try_into()`: the `try_into` to
`(u32, u32)` succeeds exactly when both components are non-negative, and the
exclusive range patterns check `x < WIDTH` and `y < HEIGHT`. -/
def inBounds (p : Point) : Prop :=
  0 ≤ p.x ∧ p.x < (WIDTH : Int) ∧ 0 ≤ p.y ∧ p.y < (HEIGHT : Int)

instance (p : Point) : Decidable (inBounds p) := by
  unfold inBounds; exact inferInstanceAs (Decidable _)

/-- Raw storage of an `embedded_graphics` `Bgr555` color: red in bits 0-4,
green in bits 5-9, blue in bits 10-14 (the GBA color layout). -/
def bgr555 (r g b : Nat) : Nat := r + 32 * g + 1024 * b

/-- `Bgr555::BLACK` raw storage. -/
def BLACK : Nat := bgr555 0 0 0

/-- `Bgr555::RED` raw storage. -/
def RED : Nat := bgr555 31 0 0

/-- `Bgr555::GREEN` raw storage. -/
def GREEN : Nat := bgr555 0 31 0

/-- `Bgr555::BLUE` raw storage. -/
def BLUE : Nat := bgr555 0 0 31

/-- `Bgr555::YELLOW` raw storage. -/
def YELLOW : Nat := bgr555 31 31 0

/-- `Bgr555::MAGENTA` raw storage. -/
def MAGENTA : Nat := bgr555 31 0 31

/-- `Bgr555::CYAN` raw storage. -/
def CYAN : Nat := bgr555 0 31 31

/-- `Bgr555::WHITE` raw storage. -/
def WHITE : Nat := bgr555 31 31 31

/-- The three 16-bit OAM attribute registers of one object, as written by
`write_obj_attributes` with the `gba` crate's `ObjectAttributes`. -/
structure ObjAttrs where
  attr0 : Nat
  attr1 : Nat
  attr2 : Nat
deriving DecidableEq

/-- Wrapping subtraction on `u16` (both arguments below `2^16`), as performed
by `y - 3` and `x - 3` in `move_reticle` on release builds. -/
def u16wrapSub (a b : Nat) : Nat := (a + 65536 - b) % 65536

/-- The fixed offset subtracted from the cursor position on each axis in
`move_reticle` (`y - 3`, `x - 3`). -/
def reticleBias : Nat := 3

/-- The `u16` value passed to `with_row_coordinate` in `move_reticle`. -/
def reticleRowValue (y : Nat) : Nat := u16wrapSub y reticleBias

/-- The `u16` value passed to `with_col_coordinate` in `move_reticle`. -/
def reticleColValue (x : Nat) : Nat := u16wrapSub x reticleBias

/-- `move_reticle(x, y)`: builds the object attributes written to OAM slot 0.
`with_row_coordinate` keeps bits 0-7 of attr0, `with_is_8bpp(true)` sets
bit 13 (value 8192), `with_col_coordinate` keeps bits 0-8 of attr1, and
`with_tile_id(514)` keeps bits 0-9 of attr2. -/
def move_reticle (x y : Nat) : ObjAttrs :=
  { attr0 := reticleRowValue y % 256 + 8192
    attr1 := reticleColValue x % 512
    attr2 := 514 % 1024 }

/-- Row-coordinate field (bits 0-7) of a written OAM attr0. -/
def rowOf (a : ObjAttrs) : Nat := a.attr0 % 256

/-- The 8bpp color-depth-mode bit (bit 13) of a written OAM attr0. -/
def is8bppOf (a : ObjAttrs) : Bool := a.attr0 / 8192 % 2 = 1

/-- Column-coordinate field (bits 0-8) of a written OAM attr1. -/
def colOf (a : ObjAttrs) : Nat := a.attr1 % 512

/-- Tile-identity field (bits 0-9) of a written OAM attr2. -/
def tileOf (a : ObjAttrs) : Nat := a.attr2 % 1024

/-- Endpoints of the vertical stroke of the reticle graphic drawn by
`draw_reticle`: `Line::new(Point::new(3, 0), Point::new(3, 6))`. -/
def reticleVLine : Point × Point := (⟨3, 0⟩, ⟨3, 6⟩)

/-- Endpoints of the horizontal stroke of the reticle graphic drawn by
`draw_reticle`: `Line::new(Point::new(0, 3), Point::new(6, 3))`. -/
def reticleHLine : Point × Point := (⟨0, 3⟩, ⟨6, 3⟩)

/-- Center of the reticle circle drawn by `draw_reticle`:
`Circle::new(Point::new(3, 3), 3)`. -/
def reticleCircleCenter : Point := ⟨3, 3⟩

/-- Radius of the reticle circle drawn by `draw_reticle`. -/
def reticleCircleRadius : Int := 3

/-- Size of the drawn reticle graphic on each axis: its strokes span
coordinates 0 through 6 inside the tile, so the visible reticle occupies a
7 × 7 pixel square. -/
def reticleSize : Nat := (reticleHLine.2.x - reticleHLine.1.x + 1).toNat

/-- One hardware write issued during a tick of the main loop: either an OAM
object-attribute write (`write_obj_attributes`) or a framebuffer pixel write. -/
inductive HwWrite
  | oam (slot : Nat) (attrs : ObjAttrs)
  | fb (x y : Nat) (color : Nat)
deriving DecidableEq

/-- Modelled from the spec: the pixel draw of `GbaDisplay`
(`src/gba_display.rs` is not present under `src/`); per the spec it is "a raw
framebuffer write primitive addressed by (x, y) accepting a packed color
value", so `Pixel(Point::new(x, y), color).draw(&mut display)` issues exactly
one framebuffer write of `color` at `(x, y)`. -/
def drawPixel (x y color : Nat) : List HwWrite := [HwWrite.fb x y color]

/-- One iteration of the main loop after `read_key_input`:
`point += offset`; if the moved point passes the bounds pattern, call
`move_reticle(x, y)` and, when `input.a()`, draw a `Bgr555::BLUE` pixel at
`(x, y)`; otherwise `point -= offset` (undo) and issue no write.  Returns the
cursor position at the end of the tick together with the list of hardware
writes issued, in order. -/
def tick (p : Point) (inp : TickInput) : Point × List HwWrite :=
  let moved : Point := ⟨p.x + inp.dx, p.y + inp.dy⟩
  if inBounds moved then
    (moved,
      HwWrite.oam 0 (move_reticle moved.x.toNat moved.y.toNat) ::
        if inp.a then drawPixel moved.x.toNat moved.y.toNat BLUE else [])
  else
    (⟨moved.x - inp.dx, moved.y - inp.dy⟩, [])

/-- Runs a sequence of ticks, tracking only the cursor position. -/
def runSteps (steps : List TickInput) (p : Point) : Point :=
  match steps with
  | [] => p
  | s :: rest => runSteps rest (tick p s).1

/-- A tick input stepping one pixel to the right, action button released. -/
def stepRight : TickInput := ⟨1, 0, false⟩

/-- Whether a hardware write is a framebuffer pixel write. -/
def isFbWrite : HwWrite → Bool
  | .fb _ _ _ => true
  | _ => false

/-- The framebuffer pixel writes among a tick's hardware writes. -/
def fbWrites (ws : List HwWrite) : List HwWrite := ws.filter isFbWrite

/-- The OAM object-attribute table, indexed by slot. -/
def OamState := Nat → ObjAttrs

/-- `write_obj_attributes(slot, attrs)`: overwrites one whole OAM slot. -/
def write_obj_attributes (oam : OamState) (slot : Nat) (a : ObjAttrs) : OamState :=
  fun i => if i = slot then a else oam i

/-- The sprite-present operation: `move_reticle(x, y)` writes the attributes
it builds to the single reserved OAM slot 0. -/
def present (oam : OamState) (x y : Nat) : OamState :=
  write_obj_attributes oam 0 (move_reticle x y)

/-- The fixed named-color list in the order the spec declares it
(BLACK, RED, GREEN, BLUE, YELLOW, MAGENTA, CYAN, WHITE). -/
def namedColors : List Nat := [BLACK, RED, GREEN, BLUE, YELLOW, MAGENTA, CYAN, WHITE]

/-- `register_palette()`: the sequence of object-palette writes it issues, as
`(index, color)` pairs, via `index_palram_obj_8bpp(i).write(...)`. -/
def register_palette : List (Nat × Nat) :=
  [(1, BLACK), (2, RED), (3, GREEN), (4, BLUE),
   (5, YELLOW), (6, MAGENTA), (7, CYAN), (8, WHITE)]

/-- Bit position of the vblank flag in the GBA interrupt-flag registers
(`IrqFlags::with_vblank` sets bit 0). -/
def vblankBit : Nat := 0

/-- The register writes performed by one run of `irq_handler`: the value
written back to `BIOS_IF` and the value written back to `IF`, or `none` when
no write is performed. -/
structure AckWrites where
  biosIfWrite : Option Nat
  ifWrite : Option Nat
deriving DecidableEq

/-- `irq_handler(flags)` from the source: when `flags.vblank()` is set it
writes `BIOS_IF.read().with_vblank(true)` to `BIOS_IF` and
`IF.read().with_vblank(true)` to `IF`; otherwise it writes nothing.
`biosIfVal` and `ifVal` are the values the two register reads return. -/
def irq_handler (flags biosIfVal ifVal : Nat) : AckWrites :=
  if flags.testBit vblankBit then
    { biosIfWrite := some (biosIfVal ||| 2 ^ vblankBit)
      ifWrite := some (ifVal ||| 2 ^ vblankBit) }
  else
    { biosIfWrite := none, ifWrite := none }

/-- Modelled from the spec: the lifecycle of `RefreshPendingFlag`.  The
blocking wait is the BIOS call `gba::bios::vblank_interrupt_wait()`, whose
body is not part of this repository; the spec states the flag is "set exactly
once per interrupt firing, cleared by the main loop's wait operation when it
resumes".  Events: an interrupt firing (the handler runs and sets the flag),
the wait operation returning (enabled only when the flag is set; clears it),
and any other main-loop work (leaves the flag alone). -/
inductive ClockEvent
  | interruptFire
  | waitReturn
  | mainWork
deriving DecidableEq

/-- One step of the refresh-pending-flag transition system: `none` means the
event cannot occur in that state (the wait cannot return while no refresh is
pending). -/
def clockStep : ClockEvent → Bool → Option Bool
  | .interruptFire, _ => some true
  | .waitReturn, b => if b then some false else none
  | .mainWork, b => some b

/-- Evaluation lemma for `tick`: the accepted branch moves the cursor and
issues the writes; the rejected branch undoes the `+=` exactly, restoring the
cursor, and issues no write. -/
theorem tick_eval (p : Point) (inp : TickInput) :
    tick p inp =
      if inBounds ⟨p.x + inp.dx, p.y + inp.dy⟩ then
        (⟨p.x + inp.dx, p.y + inp.dy⟩,
          HwWrite.oam 0 (move_reticle (p.x + inp.dx).toNat (p.y + inp.dy).toNat) ::
            if inp.a then drawPixel (p.x + inp.dx).toNat (p.y + inp.dy).toNat BLUE else [])
      else (p, []) := by
  have hx : p.x + inp.dx - inp.dx = p.x := by ring
  have hy : p.y + inp.dy - inp.dy = p.y := by ring
  simp only [tick, hx, hy]

/-- C1: for every in-bounds cursor position P and every step vector Δ with
components in {−1, 0, +1}, one tick moves the cursor to P+Δ when P+Δ is in
bounds and leaves it exactly at P otherwise (both axes validated jointly, so
a diagonal step with one axis out of bounds is rejected whole); either way
the resulting position is in bounds. -/
theorem cursor_step_bounds (p : Point) (inp : TickInput)
    (hp : inBounds p)
    (_hdx : inp.dx = -1 ∨ inp.dx = 0 ∨ inp.dx = 1)
    (_hdy : inp.dy = -1 ∨ inp.dy = 0 ∨ inp.dy = 1) :
    (inBounds ⟨p.x + inp.dx, p.y + inp.dy⟩ →
      (tick p inp).1 = ⟨p.x + inp.dx, p.y + inp.dy⟩) ∧
    (¬ inBounds ⟨p.x + inp.dx, p.y + inp.dy⟩ → (tick p inp).1 = p) ∧
    inBounds (tick p inp).1 := by
  refine ⟨fun h => by rw [tick_eval, if_pos h], fun h => by rw [tick_eval, if_neg h], ?_⟩
  rw [tick_eval]
  by_cases h : inBounds ⟨p.x + inp.dx, p.y + inp.dy⟩
  · rw [if_pos h]; exact h
  · rw [if_neg h]; exact hp

/-- Witness for C1 at P = (239, 80), Δ = (+1, +1): the diagonal step is
rejected as a whole and the cursor stays in bounds at (239, 80). -/
theorem cursor_step_bounds_witness :
    (inBounds ⟨(239 : Int) + 1, (80 : Int) + 1⟩ →
      (tick ⟨239, 80⟩ ⟨1, 1, false⟩).1 = ⟨(239 : Int) + 1, (80 : Int) + 1⟩) ∧
    (¬ inBounds ⟨(239 : Int) + 1, (80 : Int) + 1⟩ →
      (tick ⟨239, 80⟩ ⟨1, 1, false⟩).1 = ⟨239, 80⟩) ∧
    inBounds (tick ⟨239, 80⟩ ⟨1, 1, false⟩).1 :=
  cursor_step_bounds ⟨239, 80⟩ ⟨1, 1, false⟩ (by decide) (by decide) (by decide)

/-- C2: the initial cursor position is the frame center, computed with
truncating integer division of the frame dimensions, and for the fixed
240 × 160 frame it is exactly (120, 80). -/
theorem initial_point_center :
    initialPoint = ⟨(WIDTH : Int) / 2, (HEIGHT : Int) / 2⟩ ∧ initialPoint = ⟨120, 80⟩ :=
  ⟨rfl, by decide⟩

set_option maxRecDepth 8000 in
/-- C3: from the center (120, 80), one hundred twenty ticks with step
(+1, 0) leave the cursor at (239, 80), and one further (+1, 0) tick is
rejected, leaving the cursor at (239, 80). -/
theorem drive_right_scenario :
    runSteps (List.replicate 120 stepRight) initialPoint = ⟨239, 80⟩ ∧
    (tick ⟨239, 80⟩ stepRight).1 = ⟨239, 80⟩ := by
  decide

/-- C4: a tick whose candidate position is out of bounds leaves the cursor
unchanged and issues no hardware write at all — no OAM overlay-slot write and
no framebuffer pixel write — whatever the action flag is. -/
theorem rejected_tick_silent (p : Point) (inp : TickInput)
    (h : ¬ inBounds ⟨p.x + inp.dx, p.y + inp.dy⟩) :
    (tick p inp).1 = p ∧ (tick p inp).2 = [] := by
  rw [tick_eval, if_neg h]
  exact ⟨rfl, rfl⟩

/-- Witness for C4 at P = (239, 80), Δ = (+1, 0) with the action flag true:
the tick is rejected, the cursor stays at (239, 80), and no write is issued
even though the action button is pressed. -/
theorem rejected_tick_silent_witness :
    (tick ⟨239, 80⟩ ⟨1, 0, true⟩).1 = ⟨239, 80⟩ ∧
    (tick ⟨239, 80⟩ ⟨1, 0, true⟩).2 = [] :=
  rejected_tick_silent ⟨239, 80⟩ ⟨1, 0, true⟩ (by decide)

/-- C5 counterexample: on the tick from (49, 50) with step (+1, 0) and the
action flag true, the transition succeeds at (50, 50) and exactly one
framebuffer write is issued at (50, 50) — but its color is `Bgr555::BLUE`,
not RED as the claim states. -/
theorem stamp_color_counterexample :
    (tick ⟨49, 50⟩ ⟨1, 0, true⟩).1 = ⟨50, 50⟩ ∧
    fbWrites (tick ⟨49, 50⟩ ⟨1, 0, true⟩).2 = [HwWrite.fb 50 50 BLUE] ∧
    BLUE ≠ RED := by
  decide

/-- C5 amended: on a tick where the transition succeeds at position (50, 50)
and the action flag is true, exactly one framebuffer write occurs, it writes
`Bgr555::BLUE` (the color the code stamps), it is at coordinate (50, 50), and
no other framebuffer coordinate is written that tick. -/
theorem stamp_blue_at_50 (p : Point) (inp : TickInput)
    (ha : inp.a = true) (hx : p.x + inp.dx = 50) (hy : p.y + inp.dy = 50) :
    fbWrites (tick p inp).2 = [HwWrite.fb 50 50 BLUE] := by
  rw [tick_eval, hx, hy, ha]
  rw [if_pos (by decide)]
  decide

/-- Witness for C5 (amended) on the tick from (49, 50) with step (+1, 0) and
the action flag true. -/
theorem stamp_blue_at_50_witness :
    fbWrites (tick ⟨49, 50⟩ ⟨1, 0, true⟩).2 = [HwWrite.fb 50 50 BLUE] :=
  stamp_blue_at_50 ⟨49, 50⟩ ⟨1, 0, true⟩ rfl (by decide) (by decide)

/-- C6: presenting the reticle sprite twice at the same position leaves the
OAM overlay state exactly as presenting it once — the OverlaySlot write is
idempotent. -/
theorem present_idempotent (oam : OamState) (x y : Nat) :
    present (present oam x y) x y = present oam x y := by
  funext i
  unfold present write_obj_attributes
  by_cases h : i = 0 <;> simp [h]

/-- C7: for every in-bounds position (x, y), `move_reticle` writes the
overlay slot with the overlay's top-left corner at the cursor position offset
by the fixed negative bias 3 on each axis — stated in the hardware coordinate
fields' own wrapped spaces (the column field is 9 bits, the row field 8
bits), which is how the hardware places the sprite — with the fixed tile
identity 514 and the 8bpp color-depth mode on every call; and the bias 3 is
half (rounded down) of the 7-pixel reticle graphic drawn by `draw_reticle`,
so the reticle appears centered on the cursor. -/
theorem reticle_centered (x y : Nat) (hx : x < WIDTH) (hy : y < HEIGHT) :
    ((colOf (move_reticle x y) : Int) = ((x : Int) - reticleBias) % 512 ∧
     (rowOf (move_reticle x y) : Int) = ((y : Int) - reticleBias) % 256) ∧
    tileOf (move_reticle x y) = 514 ∧
    is8bppOf (move_reticle x y) = true ∧
    reticleBias = reticleSize / 2 := by
  refine ⟨⟨?_, ?_⟩, rfl, ?_, by decide⟩
  · simp only [colOf, move_reticle, reticleColValue, u16wrapSub, reticleBias]
    unfold WIDTH at hx
    omega
  · simp only [rowOf, move_reticle, reticleRowValue, u16wrapSub, reticleBias]
    unfold HEIGHT at hy
    omega
  · simp only [is8bppOf, move_reticle, decide_eq_true_eq]
    omega

/-- Witness for C7 at the in-bounds position (50, 50). -/
theorem reticle_centered_witness :
    ((colOf (move_reticle 50 50) : Int) = ((50 : Int) - reticleBias) % 512 ∧
     (rowOf (move_reticle 50 50) : Int) = ((50 : Int) - reticleBias) % 256) ∧
    tileOf (move_reticle 50 50) = 514 ∧
    is8bppOf (move_reticle 50 50) = true ∧
    reticleBias = reticleSize / 2 :=
  reticle_centered 50 50 (by decide) (by decide)

/-- C8: `register_palette` never writes color-lookup index 0 (reserved
transparent), and its writes target indices 1 through 8 in order, carrying
the fixed named-color list BLACK, RED, GREEN, BLUE, YELLOW, MAGENTA, CYAN,
WHITE in declared order. -/
theorem palette_invariant :
    (∀ w ∈ register_palette, w.1 ≠ 0) ∧
    register_palette.map Prod.fst = [1, 2, 3, 4, 5, 6, 7, 8] ∧
    register_palette.map Prod.snd = namedColors := by
  decide

/-- Witness for C8: the first palette write targets index 1, not index 0. -/
theorem palette_invariant_witness : ((1 : Nat), BLACK).1 ≠ 0 :=
  palette_invariant.1 (1, BLACK) (by decide)

/-- C9: after the wait-for-refresh operation returns, the refresh-pending
flag reads as cleared; the flag goes from cleared to set only at an
interrupt-firing event, never spontaneously; and the interrupt handler, upon
observing the vblank bit set in its flags, writes a value with that same bit
set to both the peripheral-level (`BIOS_IF`) and core-level (`IF`)
acknowledgment registers. -/
theorem refresh_flag_law :
    (∀ b b', clockStep .waitReturn b = some b' → b' = false) ∧
    (∀ e b b', clockStep e b = some b' → b = false → b' = true →
      e = ClockEvent.interruptFire) ∧
    (∀ flags biosIfVal ifVal, flags.testBit vblankBit = true →
      ∃ w1 w2, irq_handler flags biosIfVal ifVal = ⟨some w1, some w2⟩ ∧
        w1.testBit vblankBit = true ∧ w2.testBit vblankBit = true) := by
  refine ⟨?_, ?_, ?_⟩
  · intro b b' h
    cases b <;> simp_all [clockStep]
  · intro e b b' h hb hb'
    cases e <;> simp [clockStep] at h <;> subst hb <;> simp_all
  · intro flags biosIfVal ifVal h
    refine ⟨biosIfVal ||| 2 ^ vblankBit, ifVal ||| 2 ^ vblankBit, ?_, ?_, ?_⟩
    · unfold irq_handler
      rw [if_pos h]
    · simp [Nat.testBit_or]
    · simp [Nat.testBit_or]

/-- Witness for C9: a wait return from the set state clears the flag; a step
from cleared to set is an interrupt firing; and `irq_handler` on flags value
1 (vblank pending) with both acknowledgment registers reading 0 writes value
1 — vblank bit set — to both registers. -/
theorem refresh_flag_law_witness :
    (false : Bool) = false ∧
    ClockEvent.interruptFire = ClockEvent.interruptFire ∧
    ∃ w1 w2, irq_handler 1 0 0 = ⟨some w1, some w2⟩ ∧
      w1.testBit vblankBit = true ∧ w2.testBit vblankBit = true :=
  ⟨refresh_flag_law.1 true false (by decide),
   refresh_flag_law.2.1 ClockEvent.interruptFire false true (by decide) rfl rfl,
   refresh_flag_law.2.2 1 0 0 (by decide)⟩

/-- C10: for every in-bounds cursor position with x < 3 or y < 3, the `u16`
subtractions `x - 3` and `y - 3` in `move_reticle` underflow and wrap modulo
2^16, so the row/column values handed to the overlay-slot fields are not the
cursor position minus 3 as signed integers; in particular an underflowing
axis yields the wrapped value coordinate + 65533 (e.g. x = 0 gives column
value 65533) before hardware field truncation. -/
theorem reticle_underflow (x y : Nat) (hx : x < WIDTH) (hy : y < HEIGHT)
    (h : x < 3 ∨ y < 3) :
    ¬ ((reticleColValue x : Int) = (x : Int) - 3 ∧
       (reticleRowValue y : Int) = (y : Int) - 3) ∧
    (x < 3 → reticleColValue x = x + 65533) ∧
    (y < 3 → reticleRowValue y = y + 65533) := by
  unfold reticleColValue reticleRowValue u16wrapSub reticleBias
  unfold WIDTH at hx
  unfold HEIGHT at hy
  refine ⟨?_, by omega, by omega⟩
  rintro ⟨h1, h2⟩
  omega

/-- Witness for C10 at the in-bounds position (0, 50): the column value
written is 65533, not −3. -/
theorem reticle_underflow_witness :
    ¬ ((reticleColValue 0 : Int) = (0 : Int) - 3 ∧
       (reticleRowValue 50 : Int) = (50 : Int) - 3) ∧
    ((0 : Nat) < 3 → reticleColValue 0 = 0 + 65533) ∧
    ((50 : Nat) < 3 → reticleRowValue 50 = 50 + 65533) :=
  reticle_underflow 0 50 (by decide) (by decide) (Or.inl (by decide))

end AmyGba
